import Mathlib

/-!
Shallow embedding of the data pipeline of `src/datacase.py` (a Streamlit
dashboard over a pandas roster of internet clients).

Modelling conventions:
* A pandas `DataFrame` of clients is a `List` of row structures; every
  transformation in the source produces a fresh table, matching the
  source's `df.copy()` style.
* A numeric cell that can be NaN (the result of `pd.to_numeric(...,
  errors="coerce")`, or a missing value) is an `Option ℚ` with `none` for
  NaN; a string cell that can be NaN is an `Option String`.  Columns the
  source passes through `astype(str)` (`Bairro`, `ClienteID`) are plain
  `String`s, because `astype(str)` turns NaN into the string "nan" and the
  column can never again hold a null.
* Floats are modelled as `ℚ` (all constants of the program, including 1.5
  and the coordinates, are exactly representable).
* numpy's seeded generator `np.random.default_rng` is external library
  code; it is modelled as a deterministic state machine seeded either by
  the explicit seed or, when the seed is absent, by ambient OS entropy
  (numpy's documented behaviour for `default_rng(None)`).  The exact bit
  stream is not reproduced; no claim depends on the concrete values, only
  on determinism, ranges and shape.
-/

/-- Static neighbourhood → (latitude, longitude) table `BAIRRO_COORDS`. -/
def BAIRRO_COORDS : List (String × ℚ × ℚ) := [
  ("Centro", (-9.3890, -40.5020)),
  ("Areia Branca", (-9.4080, -40.5260)),
  ("Cohab Massangano", (-9.4110, -40.5000)),
  ("Jardim Maravilha", (-9.4200, -40.5100)),
  ("Gercino Coelho", (-9.4300, -40.4950)),
  ("Dom Avelar", (-9.4400, -40.5000)),
  ("José e Maria", (-9.4500, -40.5050)),
  ("Pedra Linda", (-9.4600, -40.5100)),
  ("Vila Mocó", (-9.4700, -40.5200)),
  ("Vale do Grande Rio", (-9.4800, -40.5300))]

/-- Python's `str.zfill(width)`: left-pad with `'0'` to `width` characters,
keeping a leading sign character in front of the padding.  Strings already
at least `width` long are returned unchanged. -/
def zfill (width : ℕ) (s : String) : String :=
  if width ≤ s.length then s
  else
    let pad := List.replicate (width - s.length) '0'
    match s.data with
    | [] => String.mk pad
    | c :: rest =>
        if c = '+' ∨ c = '-' then String.mk (c :: (pad ++ rest))
        else String.mk (pad ++ (c :: rest))

/-- One row of the client table before the derived columns are added:
the five source columns of the CSV / synthetic roster.  `plano` and
`consumo` hold the value after `pd.to_numeric(..., errors="coerce")`
(`none` = NaN, i.e. the cell was missing or failed numeric conversion);
`tipo` is `none` when the cell is missing (pandas NaN). -/
structure PreRow where
  clienteID : String
  bairro : String
  plano : Option ℚ
  consumo : Option ℚ
  tipo : Option String
deriving DecidableEq

/-- One row of the fully normalised client table returned by
`load_client_data`: the five source columns plus the derived columns
`Excedeu`, `Excedeu50`, `Lat`, `Lon`. -/
structure Row where
  clienteID : String
  bairro : String
  plano : Option ℚ
  consumo : Option ℚ
  tipo : Option String
  excedeu : Bool
  excedeu50 : Bool
  lat : Option ℚ
  lon : Option ℚ
deriving DecidableEq

/-- Modelled from the spec: numpy's pseudorandom generator state
(`np.random.Generator`).  The exact PCG64 stream is external library code;
it is modelled as a 64-bit linear congruential state machine, which keeps
every property the program relies on: the stream is a deterministic
function of the initial state. -/
structure RNG where
  state : ℕ
deriving DecidableEq

/-- Modelled from the spec: `np.random.default_rng(seed)`.  With an
explicit seed the generator state is a function of the seed alone; with
`seed = none` (numpy's `default_rng()` / `default_rng(None)`) the state is
drawn from ambient OS entropy, modelled by the extra argument. -/
def default_rng (seed : Option ℕ) (osEntropy : ℕ) : RNG :=
  match seed with
  | some s => ⟨s % 2 ^ 64⟩
  | none => ⟨osEntropy % 2 ^ 64⟩

/-- One step of the modelled generator: next 64-bit state. -/
def RNG.next (r : RNG) : ℕ × RNG :=
  let s := (r.state * 6364136223846793005 + 1442695040888963407) % 2 ^ 64
  (s, ⟨s⟩)

/-- Modelled from the spec: `rng.choice(pool, size)` — `size` uniform draws
from `pool`.  `dflt` is returned for an empty pool (the program only draws
from non-empty literal pools, so it is never used). -/
def RNG.choice {α : Type} (r : RNG) (pool : List α) (dflt : α) (size : ℕ) :
    List α × RNG :=
  match size with
  | 0 => ([], r)
  | n + 1 =>
      let (v, r₁) := r.next
      let (rest, r₂) := r₁.choice pool dflt n
      (pool.getD (v % pool.length) dflt :: rest, r₂)

/-- Modelled from the spec: `rng.integers(lo, hi, size)` — `size` uniform
integer draws from the half-open interval `[lo, hi)`. -/
def RNG.integers (r : RNG) (lo hi : ℤ) (size : ℕ) : List ℤ × RNG :=
  match size with
  | 0 => ([], r)
  | n + 1 =>
      let (v, r₁) := r.next
      let (rest, r₂) := r₁.integers lo hi n
      ((lo + (v : ℤ) % (hi - lo)) :: rest, r₂)

/-- Modelled from the spec: `rng.uniform(lo, hi)` — one uniform draw from
`[lo, hi)`, the 64-bit state scaled into the interval. -/
def RNG.uniform (r : RNG) (lo hi : ℚ) : ℚ × RNG :=
  let (v, r₁) := r.next
  (lo + (hi - lo) * ((v : ℚ) / 2 ^ 64), r₁)

/-- Modelled from the spec: `rng.normal(mean, sd)` — one draw from a
distribution centred at `mean` with spread `sd`; the modelled draw maps the
64-bit state to a symmetric value in `[mean - 2*sd, mean + 2*sd]`. -/
def RNG.normal (r : RNG) (mean sd : ℚ) : ℚ × RNG :=
  let (v, r₁) := r.next
  (mean + sd * (((v % 25 : ℕ) : ℚ) - 12) / 6, r₁)

/-- Fixed plan-speed pool of `generate_synthetic_data`. -/
def PLANOS : List ℚ := [50, 100, 150, 200, 500]

/-- Fixed plan-tier pool of `generate_synthetic_data`. -/
def TIPOS_PLANO : List String := ["Residencial", "Empresarial", "Premium"]

/-- Synthetic roster `generate_synthetic_data(num_clients)`: ids are the
sequence 1..N rendered as `f"{i:03d}"` (zero-padded to width 3),
neighbourhoods drawn from the sorted coordinate-table keys, plan speeds
from `PLANOS`, tiers from `TIPOS_PLANO`, usage uniform in `[10, 550)`, all
from a generator seeded with the constant 42.  `osEntropy` models the
ambient entropy a call could observe; the fixed seed ignores it. -/
def generate_synthetic_data (osEntropy : ℕ) (num_clients : ℕ) : List PreRow :=
  let rng := default_rng (some 42) osEntropy
  let clientes := (List.range' 1 num_clients).map (fun i => zfill 3 (Nat.repr i))
  let bairros := (BAIRRO_COORDS.map Prod.fst).mergeSort (fun a b => decide (a ≤ b))
  let bs := (rng.choice bairros "" num_clients).1
  let rng₁ := (rng.choice bairros "" num_clients).2
  let ps := (rng₁.choice PLANOS 0 num_clients).1
  let rng₂ := (rng₁.choice PLANOS 0 num_clients).2
  let ts := (rng₂.choice TIPOS_PLANO "" num_clients).1
  let rng₃ := (rng₂.choice TIPOS_PLANO "" num_clients).2
  let cs := (rng₃.integers 10 550 num_clients).1
  (List.range num_clients).map (fun i =>
    { clienteID := clientes.getD i ""
      bairro := bs.getD i ""
      plano := some (ps.getD i 0)
      consumo := some ((cs.getD i 0 : ℤ) : ℚ)
      tipo := some (ts.getD i "") })

/-- Header cleaning of `_clean_columns`: embedded newlines become spaces
and surrounding whitespace is stripped, per column name. -/
def clean_col (c : String) : String := (c.replace "\n" " ").trim

/-- A raw table as handed back by `pd.read_csv`: the (uncleaned) column
names, and the rows.  Row cells for the five modelled columns are always
present in the row structure; when the corresponding column name is not in
`cols` the program never reads those cells (it falls back to synthetic
data), so their values are irrelevant.  Numeric cells already carry their
post-`to_numeric` value (`none` = NaN / unparseable). -/
structure RawTable where
  cols : List String
  rows : List PreRow
deriving DecidableEq

/-- Column-name cleaning `_clean_columns` lifted to a table. -/
def clean_columns (t : RawTable) : RawTable :=
  { t with cols := t.cols.map clean_col }

/-- Required columns checked at the end of the `try` block of
`load_client_data`. -/
def REQUIRED_COLUMNS : List String :=
  ["ClienteID", "Plano (MB/s)", "Consumo Atual (MB/s)", "Tipo de Plano", "Bairro"]

/-- The `try` block of `load_client_data` after a successful `read_csv`:
clean the headers, normalise `Bairro` and `ClienteID`, coerce the numeric
columns, and check the required columns, failing (`none`) on any error.
Two failure points mirror the source faithfully: when `Bairro` (resp.
`ClienteID`) is absent, `df.get(col, "")` returns the plain string `""`
and the attribute access `"".astype` raises `AttributeError`, caught by
the bare `except`; when one of the other required columns is absent the
explicit `issubset` check raises `ValueError`.  Either way the block
fails exactly when a required column is missing after cleaning.
`pd.to_numeric(..., errors="coerce")` is the identity here because numeric
cells already carry their post-coercion value. -/
def try_load (t : RawTable) : Option (List PreRow) :=
  let t₁ := clean_columns t
  if "Bairro" ∈ t₁.cols then
    let rows₁ := t₁.rows.map (fun r => { r with bairro := r.bairro.trim })
    if "ClienteID" ∈ t₁.cols then
      let rows₂ := rows₁.map (fun r => { r with clienteID := zfill 3 r.clienteID })
      if REQUIRED_COLUMNS.all (fun c => decide (c ∈ t₁.cols)) then some rows₂
      else none
    else none
  else none

/-- Pandas comparison `a > b` on possibly-NaN cells: `False` whenever
either side is NaN. -/
def gtNA (a b : Option ℚ) : Bool :=
  match a, b with
  | some x, some y => decide (y < x)
  | _, _ => false

/-- Line 159 of the source: `df.dropna(subset=["Plano (MB/s)", "Consumo
Atual (MB/s)", "Tipo de Plano", "Bairro"])` — keep the rows whose four
fields are all defined.  `Bairro` is a `String` cell (never NaN, thanks to
`astype(str)` on both paths), so only the three `Option` fields can drop a
row. -/
def dropna_required (rows : List PreRow) : List PreRow :=
  rows.filter (fun r => r.plano.isSome && r.consumo.isSome && r.tipo.isSome)

/-- Lines 160–161 of the source: strip `Bairro`, zero-pad `ClienteID` to
width 3 (applied on both the CSV and the synthetic path). -/
def strip_zfill (rows : List PreRow) : List PreRow :=
  rows.map (fun r =>
    { r with bairro := r.bairro.trim, clienteID := zfill 3 r.clienteID })

/-- Lines 162–163 of the source: add the derived flags
`Excedeu = consumo > plano` and `Excedeu50 = consumo > plano * 1.5`,
turning a `PreRow` into a full `Row` (coordinates still unset). -/
def add_flags (rows : List PreRow) : List Row :=
  rows.map (fun r =>
    { clienteID := r.clienteID
      bairro := r.bairro
      plano := r.plano
      consumo := r.consumo
      tipo := r.tipo
      excedeu := gtNA r.consumo r.plano
      excedeu50 := gtNA r.consumo (r.plano.map (fun p => p * 1.5))
      lat := none
      lon := none })

/-- The function `_prepare_coordinates`: attach `Lat`/`Lon` by looking the
neighbourhood up in `BAIRRO_COORDS`; an unknown neighbourhood gets NaN
(`none`) coordinates. -/
def prepare_coordinates (rows : List Row) : List Row :=
  rows.map (fun r =>
    { r with
      lat := (BAIRRO_COORDS.lookup r.bairro).map Prod.fst
      lon := (BAIRRO_COORDS.lookup r.bairro).map Prod.snd })

/-- The shared tail of `load_client_data` (lines 159–164): dropna on the
four required value columns, re-normalise `Bairro`/`ClienteID`, compute
the derived flags, attach coordinates. -/
def normalize_rows (rows : List PreRow) : List Row :=
  prepare_coordinates (add_flags (strip_zfill (dropna_required rows)))

/-- Loader/normaliser `load_client_data`: `input = none` models a
`read_csv` failure (missing or unreadable file); otherwise the `try` block
runs on the parsed table and any failure inside it falls back to the
synthetic roster with the source label "Dados simulados".  The shared
normalisation tail runs on both paths. -/
def load_client_data (osEntropy : ℕ) (input : Option RawTable) :
    List Row × String :=
  let loaded :=
    match input with
    | some t => try_load t
    | none => none
  match loaded with
  | some rows => (normalize_rows rows, "Arquivo CSV")
  | none => (normalize_rows (generate_synthetic_data osEntropy 150), "Dados simulados")

/-- Filter engine `apply_filters`: keep rows whose neighbourhood and tier
are in the selected lists and whose usage is at least the slider minimum
(pandas `isin` and `>=` are `False` on NaN cells), then restrict by the
critical-status mode ("Apenas críticos" keeps `Excedeu`, "Sem críticos"
keeps `¬Excedeu`, anything else — in particular "Todos" — keeps all). -/
def apply_filters (df : List Row) (bairros_sel tipos_sel : List String)
    (criticos_sel : String) (consumo_min : ℤ) : List Row :=
  let df_filtrado := df.filter (fun r =>
    decide (r.bairro ∈ bairros_sel)
    && (match r.tipo with
        | some t => decide (t ∈ tipos_sel)
        | none => false)
    && (match r.consumo with
        | some c => decide ((consumo_min : ℚ) ≤ c)
        | none => false))
  if criticos_sel = "Apenas críticos" then
    df_filtrado.filter (fun r => r.excedeu)
  else if criticos_sel = "Sem críticos" then
    df_filtrado.filter (fun r => !r.excedeu)
  else df_filtrado

/-- Mean of a pandas numeric column (`Series.mean()` skips NaN cells):
sum of the defined values over their count. -/
def seriesMean (vals : List ℚ) : ℚ := vals.sum / vals.length

/-- Modelled from pandas documentation: `Series.mode()` returns the set of
most-frequent values sorted ascending, so `.iloc[0]` is the least value
among those of maximal frequency; "-" is returned for an empty series (the
program only calls this on a non-empty column). -/
def seriesModeFirst (l : List String) : String :=
  let maxCount := l.foldr (fun b acc => max (l.count b) acc) 0
  match l.filter (fun b => decide (l.count b = maxCount)) with
  | [] => "-"
  | x :: xs => xs.foldl (fun a b => if b < a then b else a) x

/-- KPI record returned by `compute_kpis` (the Python dict). -/
structure KPIs where
  total_clientes : ℕ
  total_criticos : ℕ
  total_criticos50 : ℕ
  consumo_medio : ℚ
  bairro_top : String
  perc_criticos : ℚ
deriving DecidableEq

/-- KPI aggregator `compute_kpis`: an explicit empty-roster branch returns
all-zero KPIs with the placeholder neighbourhood "-"; otherwise counts,
mean usage, modal neighbourhood and critical percentage are computed. -/
def compute_kpis (df : List Row) : KPIs :=
  if df.isEmpty then
    { total_clientes := 0
      total_criticos := 0
      total_criticos50 := 0
      consumo_medio := 0
      bairro_top := "-"
      perc_criticos := 0 }
  else
    let total_clientes := df.length
    let total_criticos := df.countP (fun r => r.excedeu)
    let total_criticos50 := df.countP (fun r => r.excedeu50)
    let consumo_medio := seriesMean (df.filterMap (fun r => r.consumo))
    let bairro_top := seriesModeFirst (df.map (fun r => r.bairro))
    let perc_criticos := (total_criticos : ℚ) / (total_clientes : ℚ) * 100
    { total_clientes := total_clientes
      total_criticos := total_criticos
      total_criticos50 := total_criticos50
      consumo_medio := consumo_medio
      bairro_top := bairro_top
      perc_criticos := perc_criticos }

/-- The twelve month labels of `build_trend_data`, in calendar order. -/
def MESES : List String :=
  ["Jan", "Fev", "Mar", "Abr", "Mai", "Jun",
   "Jul", "Ago", "Set", "Out", "Nov", "Dez"]

/-- One synthesized trend record (neighbourhood, month label, value). -/
structure TrendRecord where
  bairro : String
  mes : String
  consumo_medio : ℚ
deriving DecidableEq

/-- Inner loop of `build_trend_data` over `enumerate(meses)`: for each
(index, month) pair draw noise, add the drift `idx * 1.2`, floor at 0. -/
def trend_rows (bairro : String) (base : ℚ) :
    RNG → List (ℕ × String) → List TrendRecord × RNG
  | rng, [] => ([], rng)
  | rng, (idx, mes) :: rest =>
      let noise := (rng.normal 0 12).1
      let rng₁ := (rng.normal 0 12).2
      let tendencia := max (base + noise + (idx : ℚ) * 1.2) 0
      let tail := (trend_rows bairro base rng₁ rest).1
      let rng₂ := (trend_rows bairro base rng₁ rest).2
      (⟨bairro, mes, tendencia⟩ :: tail, rng₂)

/-- Outer loop of `build_trend_data` over the seed pairs: a NaN base
(`none`) is replaced by a uniform draw from `[60, 200)` before the month
loop runs. -/
def trend_all : RNG → List (String × Option ℚ) → List TrendRecord × RNG
  | rng, [] => ([], rng)
  | rng, (bairro, base?) :: rest =>
      let baseDraw :=
        match base? with
        | some b => (b, rng)
        | none => rng.uniform 60 200
      let base := baseDraw.1
      let rng₁ := baseDraw.2
      let recs := (trend_rows bairro base rng₁ MESES.enum).1
      let rng₂ := (trend_rows bairro base rng₁ MESES.enum).2
      let tail := (trend_all rng₂ rest).1
      let rng₃ := (trend_all rng₂ rest).2
      (recs ++ tail, rng₃)

/-- Trend synthesizer `build_trend_data`: empty seed data yields the empty
table; otherwise a generator seeded with the constant 2024 drives the two
nested loops.  A base of `none` models a NaN float base.  `osEntropy`
models ambient entropy, ignored because the seed is fixed. -/
def build_trend_data (osEntropy : ℕ) (seed_data : List (String × Option ℚ)) :
    List TrendRecord :=
  if seed_data.isEmpty then []
  else (trend_all (default_rng (some 2024) osEntropy) seed_data).1

/-! ### Helper lemmas -/

/-- Length of a string built from an explicit character list. -/
lemma length_mk_data (l : List Char) : (String.mk l).length = l.length := rfl

/-- Result length of `zfill`: padded strings reach exactly the target
width and longer strings are untouched. -/
lemma zfill_length (width : ℕ) (s : String) :
    (zfill width s).length = max width s.length := by
  unfold zfill
  by_cases h : width ≤ s.length
  · rw [if_pos h, Nat.max_eq_right h]
  · rw [if_neg h]
    push_neg at h
    have hl : s.length = s.data.length := rfl
    split
    · rename_i heq
      rw [heq] at hl
      simp at hl
      simp [length_mk_data, hl] at h ⊢
    · rename_i c rest heq
      rw [heq] at hl
      split_ifs with hc
      · simp [length_mk_data, hl] at h ⊢
        omega
      · simp [length_mk_data, hl] at h ⊢
        omega

/-- Strings at least as long as the target width are left unchanged. -/
lemma zfill_of_le (width : ℕ) (s : String) (h : width ≤ s.length) :
    zfill width s = s := by
  unfold zfill
  rw [if_pos h]

/-- Zero-padding is idempotent, so the second padding pass of
`load_client_data` leaves file-path ids unchanged. -/
lemma zfill_idem (width : ℕ) (s : String) :
    zfill width (zfill width s) = zfill width s :=
  zfill_of_le width _ (by rw [zfill_length]; omega)

/-- Structural characterisation of the rows produced by the shared
normalisation tail: every output row comes from an input row whose three
optional fields are defined, carries that row's values, and has the
derived columns computed from them. -/
lemma mem_normalize_rows {l : List PreRow} {r : Row} (h : r ∈ normalize_rows l) :
    ∃ p : PreRow, p ∈ l ∧ p.plano.isSome ∧ p.consumo.isSome ∧ p.tipo.isSome ∧
      r.clienteID = zfill 3 p.clienteID ∧ r.bairro = p.bairro.trim ∧
      r.plano = p.plano ∧ r.consumo = p.consumo ∧ r.tipo = p.tipo ∧
      r.excedeu = gtNA p.consumo p.plano ∧
      r.excedeu50 = gtNA p.consumo (p.plano.map (fun x => x * 1.5)) := by
  simp only [normalize_rows, prepare_coordinates, add_flags, strip_zfill,
    dropna_required, List.mem_map, List.mem_filter] at h
  obtain ⟨r₁, ⟨r₂, ⟨p, ⟨hp, hkeep⟩, rfl⟩, rfl⟩, rfl⟩ := h
  simp only [Bool.and_eq_true] at hkeep
  exact ⟨p, hp, hkeep.1.1, hkeep.1.2, hkeep.2, rfl, rfl, rfl, rfl, rfl, rfl, rfl⟩

/-- Both branches of `load_client_data` return a roster of the shape
`normalize_rows rows` for some pre-row list. -/
lemma load_client_data_fst (e : ℕ) (input : Option RawTable) :
    ∃ rows : List PreRow, (load_client_data e input).1 = normalize_rows rows := by
  unfold load_client_data
  cases input with
  | none => exact ⟨generate_synthetic_data e 150, rfl⟩
  | some t =>
      cases h : try_load t with
      | none => exact ⟨generate_synthetic_data e 150, by simp [h]⟩
      | some rows => exact ⟨rows, by simp [h]⟩

/-! ### C4 -/

/-- C4: every row returned by `load_client_data` has a defined plan
speed, current usage and plan tier (rows with an undefined field are
dropped by the normalisation, never kept, and never raise); the
neighbourhood is a plain string by construction (`astype(str)`), hence
always defined. -/
theorem load_client_data_fields_defined (e : ℕ) (input : Option RawTable)
    (r : Row) (h : r ∈ (load_client_data e input).1) :
    r.plano.isSome ∧ r.consumo.isSome ∧ r.tipo.isSome := by
  obtain ⟨rows, hrows⟩ := load_client_data_fst e input
  rw [hrows] at h
  obtain ⟨p, _, hpl, hco, hti, _, _, hplano, hconsumo, htipo, _, _⟩ :=
    mem_normalize_rows h
  rw [hplano, hconsumo, htipo]
  exact ⟨hpl, hco, hti⟩

/-- Concrete table used to instantiate the C4 theorem. -/
def tableC4 : RawTable :=
  { cols := ["ClienteID", "Plano (MB/s)", "Consumo Atual (MB/s)",
             "Tipo de Plano", "Bairro"]
    rows := [{ clienteID := "001", bairro := "Quati", plano := some 50,
               consumo := some 100, tipo := some "Residencial" }] }

/-- Concrete output row used to instantiate the C4 theorem. -/
def rowC4 : Row :=
  { clienteID := "001", bairro := "Quati", plano := some 50,
    consumo := some 100, tipo := some "Residencial", excedeu := true,
    excedeu50 := true, lat := none, lon := none }

/-- Witness for C4 at a concrete loaded table. -/
theorem load_client_data_fields_defined_witness :
    rowC4 ∈ (load_client_data 0 (some tableC4)).1 ∧
      (rowC4.plano.isSome ∧ rowC4.consumo.isSome ∧ rowC4.tipo.isSome) :=
  ⟨by with_unfolding_all decide,
   load_client_data_fields_defined 0 (some tableC4) rowC4
     (by with_unfolding_all decide)⟩

/-! ### C1 -/

/-- Table whose single (perfectly well-formed) row has a negative plan
speed, which `load_client_data` accepts unchanged. -/
def tableC1neg : RawTable :=
  { cols := ["ClienteID", "Plano (MB/s)", "Consumo Atual (MB/s)",
             "Tipo de Plano", "Bairro"]
    rows := [{ clienteID := "001", bairro := "Quati", plano := some (-10),
               consumo := some (-12), tipo := some "Residencial" }] }

/-- Counterexample to C1 as stated: with plan speed -10 and usage -12 the
roster returned by `load_client_data` contains a row with `Excedeu50`
true (because -12 > -15) but `Excedeu` false (because -12 ≤ -10). -/
theorem excedeu50_without_excedeu :
    ∃ r ∈ (load_client_data 0 (some tableC1neg)).1,
      r.excedeu50 = true ∧ r.excedeu = false := by
  with_unfolding_all decide

/-- C1 (amended): for every row of the roster returned by
`load_client_data` whose plan speed is non-negative, `Excedeu50` implies
`Excedeu`.  (Synthetic plan speeds are always positive; file-sourced ones
may be negative, where the implication fails.) -/
theorem excedeu50_implies_excedeu_of_nonneg (e : ℕ) (input : Option RawTable)
    (r : Row) (h : r ∈ (load_client_data e input).1) (p : ℚ)
    (hp : r.plano = some p) (hpos : 0 ≤ p) (h50 : r.excedeu50 = true) :
    r.excedeu = true := by
  obtain ⟨rows, hrows⟩ := load_client_data_fst e input
  rw [hrows] at h
  obtain ⟨q, _, _, hco, _, _, _, hplano, hconsumo, _, hexc, hexc50⟩ :=
    mem_normalize_rows h
  obtain ⟨c, hc⟩ := Option.isSome_iff_exists.mp hco
  rw [hplano] at hp
  rw [hexc50, hc, hp] at h50
  rw [hexc, hc, hp]
  simp only [Option.map_some', gtNA, decide_eq_true_eq] at h50 ⊢
  nlinarith

/-- Table instantiating the amended C1 theorem with a non-negative plan. -/
def tableC1pos : RawTable :=
  { cols := ["ClienteID", "Plano (MB/s)", "Consumo Atual (MB/s)",
             "Tipo de Plano", "Bairro"]
    rows := [{ clienteID := "002", bairro := "Quati", plano := some 50,
               consumo := some 100, tipo := some "Residencial" }] }

/-- Output row of `tableC1pos` used by the C1 witness. -/
def rowC1pos : Row :=
  { clienteID := "002", bairro := "Quati", plano := some 50,
    consumo := some 100, tipo := some "Residencial", excedeu := true,
    excedeu50 := true, lat := none, lon := none }

/-- Witness for the amended C1 theorem at a concrete loaded table. -/
theorem excedeu50_implies_excedeu_of_nonneg_witness :
    (rowC1pos ∈ (load_client_data 0 (some tableC1pos)).1 ∧
      rowC1pos.plano = some 50 ∧ (0 : ℚ) ≤ 50 ∧ rowC1pos.excedeu50 = true) ∧
      rowC1pos.excedeu = true :=
  ⟨⟨by with_unfolding_all decide, rfl, by norm_num, rfl⟩,
   excedeu50_implies_excedeu_of_nonneg 0 (some tableC1pos) rowC1pos
     (by with_unfolding_all decide) 50 rfl (by norm_num) rfl⟩

/-! ### C2 -/

/-- Branch lemma: a table whose `try` block succeeds yields the
normalised CSV rows and the label "Arquivo CSV". -/
lemma load_client_data_csv {t : RawTable} {rows : List PreRow} (e : ℕ)
    (h : try_load t = some rows) :
    load_client_data e (some t) = (normalize_rows rows, "Arquivo CSV") := by
  unfold load_client_data
  simp [h]

/-- Branch lemma: a failing `try` block (or a missing file) yields the
normalised synthetic roster and the label "Dados simulados". -/
lemma load_client_data_fallback {input : Option RawTable} (e : ℕ)
    (h : input = none ∨ ∃ t, input = some t ∧ try_load t = none) :
    load_client_data e input =
      (normalize_rows (generate_synthetic_data e 150), "Dados simulados") := by
  unfold load_client_data
  rcases h with rfl | ⟨t, rfl, ht⟩
  · rfl
  · simp [ht]

/-- Every row of the synthetic roster has as id the zero-padded numeral
of its 1-based position. -/
lemma mem_generate_synthetic_data {e n : ℕ} {p : PreRow}
    (h : p ∈ generate_synthetic_data e n) :
    ∃ i, i < n ∧ p.clienteID = zfill 3 (Nat.repr (1 + i)) := by
  simp only [generate_synthetic_data, List.mem_map, List.mem_range] at h
  obtain ⟨i, hi, rfl⟩ := h
  refine ⟨i, hi, ?_⟩
  show (((List.range' 1 n).map (fun j => zfill 3 (Nat.repr j))).getD i "") = _
  rw [List.getD_eq_getElem _ _ (by simpa using hi)]
  simp [List.getElem_range']

/-- Table whose single row carries the four-character id "1234". -/
def tableC2long : RawTable :=
  { cols := ["ClienteID", "Plano (MB/s)", "Consumo Atual (MB/s)",
             "Tipo de Plano", "Bairro"]
    rows := [{ clienteID := "1234", bairro := "Quati", plano := some 50,
               consumo := some 10, tipo := some "Residencial" }] }

/-- Counterexample to C2 as stated: `zfill(3)` pads to *at least* three
characters, so the file-sourced id "1234" survives with four characters
and the returned roster violates "exactly 3 characters". -/
theorem clienteID_not_three_chars :
    ∃ r ∈ (load_client_data 0 (some tableC2long)).1, r.clienteID.length ≠ 3 := by
  with_unfolding_all decide

/-- Every row of a successful `try` block is a raw table row with the
neighbourhood stripped and the id zero-padded — in particular its id is
`zfill 3` of the raw id. -/
lemma mem_try_load {t : RawTable} {rows : List PreRow} {q : PreRow}
    (h : try_load t = some rows) (hq : q ∈ rows) :
    ∃ p ∈ t.rows, q.clienteID = zfill 3 p.clienteID := by
  simp only [try_load] at h
  by_cases h1 : "Bairro" ∈ (clean_columns t).cols
  · rw [if_pos h1] at h
    by_cases h2 : "ClienteID" ∈ (clean_columns t).cols
    · rw [if_pos h2] at h
      by_cases h3 : REQUIRED_COLUMNS.all
          (fun c => decide (c ∈ (clean_columns t).cols)) = true
      · rw [if_pos h3] at h
        obtain rfl := Option.some.inj h
        simp only [List.mem_map] at hq
        obtain ⟨p₁, ⟨p, hp, rfl⟩, rfl⟩ := hq
        exact ⟨p, hp, rfl⟩
      · rw [if_neg h3] at h
        cases h
    · rw [if_neg h2] at h
      cases h
  · rw [if_neg h1] at h
    cases h

/-- C2 (amended): every returned id is zero-padded to width at least 3;
on the CSV path (label "Arquivo CSV") each id is exactly `zfill 3` of the
raw table id it came from, with exactly `max 3 (original length)`
characters (hence exactly 3 whenever the source id has at most 3
characters); on the synthetic path (label "Dados simulados") every id is
exactly the 3-character zero-padded numeral of a position 1..150. -/
theorem clienteID_zero_padded (e : ℕ) (input : Option RawTable) (r : Row)
    (h : r ∈ (load_client_data e input).1) :
    3 ≤ r.clienteID.length ∧
      (∀ t, input = some t → (load_client_data e input).2 = "Arquivo CSV" →
        ∃ p ∈ t.rows, r.clienteID = zfill 3 p.clienteID ∧
          r.clienteID.length = max 3 p.clienteID.length) ∧
      ((load_client_data e input).2 = "Dados simulados" →
        ∃ i, 1 ≤ i ∧ i ≤ 150 ∧ r.clienteID = zfill 3 (Nat.repr i) ∧
          r.clienteID.length = 3) := by
  refine ⟨?_, ?_, ?_⟩
  · obtain ⟨rows, hrows⟩ := load_client_data_fst e input
    rw [hrows] at h
    obtain ⟨p, _, _, _, _, hid, _⟩ := mem_normalize_rows h
    rw [hid, zfill_length]
    omega
  · rintro t rfl hcsv
    cases htl : try_load t with
    | none =>
        rw [load_client_data_fallback e (Or.inr ⟨t, rfl, htl⟩)] at hcsv
        simp at hcsv
    | some rows =>
        rw [load_client_data_csv e htl] at h
        obtain ⟨q, hq, _, _, _, hid, _⟩ := mem_normalize_rows h
        obtain ⟨p, hp, hqid⟩ := mem_try_load htl hq
        refine ⟨p, hp, ?_, ?_⟩
        · rw [hid, hqid, zfill_idem]
        · rw [hid, hqid, zfill_idem, zfill_length]
  · intro hsim
    have hfb : load_client_data e input =
        (normalize_rows (generate_synthetic_data e 150), "Dados simulados") := by
      cases input with
      | none => exact load_client_data_fallback e (Or.inl rfl)
      | some t =>
          cases htl : try_load t with
          | none => exact load_client_data_fallback e (Or.inr ⟨t, rfl, htl⟩)
          | some rows =>
              rw [load_client_data_csv e htl] at hsim
              simp at hsim
    rw [hfb] at h
    obtain ⟨p, hp, _, _, _, hid, _⟩ := mem_normalize_rows h
    obtain ⟨i, hi, hpid⟩ := mem_generate_synthetic_data hp
    have hlen : ∀ j ∈ List.range 150, (Nat.repr (1 + j)).length ≤ 3 := by
      set_option maxRecDepth 2000 in decide
    have hlen_i := hlen i (List.mem_range.mpr hi)
    refine ⟨1 + i, by omega, by omega, ?_, ?_⟩
    · rw [hid, hpid, zfill_idem]
    · rw [hid, hpid, zfill_idem, zfill_length]
      omega

/-- Table whose single row carries the short id "12". -/
def tableC2short : RawTable :=
  { cols := ["ClienteID", "Plano (MB/s)", "Consumo Atual (MB/s)",
             "Tipo de Plano", "Bairro"]
    rows := [{ clienteID := "12", bairro := "Quati", plano := some 50,
               consumo := some 10, tipo := some "Residencial" }] }

/-- Output row of `tableC2short`: the id is padded to "012". -/
def rowC2short : Row :=
  { clienteID := "012", bairro := "Quati", plano := some 50,
    consumo := some 10, tipo := some "Residencial", excedeu := false,
    excedeu50 := false, lat := none, lon := none }

/-- Witness for the amended C2 theorem: `tableC2short` takes the CSV path,
so the second conjunct produces its raw row with id "12", padded to "012"
of length `max 3 2 = 3`. -/
theorem clienteID_zero_padded_witness :
    rowC2short ∈ (load_client_data 0 (some tableC2short)).1 ∧
      (3 ≤ rowC2short.clienteID.length ∧
        (∀ t, (some tableC2short : Option RawTable) = some t →
          (load_client_data 0 (some tableC2short)).2 = "Arquivo CSV" →
          ∃ p ∈ t.rows, rowC2short.clienteID = zfill 3 p.clienteID ∧
            rowC2short.clienteID.length = max 3 p.clienteID.length) ∧
        ((load_client_data 0 (some tableC2short)).2 = "Dados simulados" →
          ∃ i, 1 ≤ i ∧ i ≤ 150 ∧ rowC2short.clienteID = zfill 3 (Nat.repr i) ∧
            rowC2short.clienteID.length = 3)) :=
  ⟨by with_unfolding_all decide,
   clienteID_zero_padded 0 (some tableC2short) rowC2short
     (by with_unfolding_all decide)⟩

/-! ### C3 -/

/-- The `try` block fails exactly as required: if any required column is
missing after header cleaning, some step of the block raises
(`AttributeError` on the `Bairro`/`ClienteID` normalisation, `ValueError`
on the explicit check) and the result is `none`. -/
lemma try_load_eq_none {t : RawTable}
    (h : ∃ c ∈ REQUIRED_COLUMNS, c ∉ (clean_columns t).cols) :
    try_load t = none := by
  obtain ⟨c, hc, hnot⟩ := h
  unfold try_load
  by_cases hb : "Bairro" ∈ (clean_columns t).cols
  · by_cases hcl : "ClienteID" ∈ (clean_columns t).cols
    · have hall : REQUIRED_COLUMNS.all
          (fun c => decide (c ∈ (clean_columns t).cols)) = false := by
        rw [List.all_eq_false]
        exact ⟨c, hc, by simpa using hnot⟩
      simp [hb, hcl, hall]
    · simp [hb, hcl]
  · simp [hb]

/-- C3: when any of the five required columns is absent after column-name
cleaning, `load_client_data` returns the normalised synthetic roster with
the source label "Dados simulados"; the function is total, so the failure
is never surfaced as an error. -/
theorem load_missing_columns_falls_back (e : ℕ) (t : RawTable)
    (h : ∃ c ∈ REQUIRED_COLUMNS, c ∉ (clean_columns t).cols) :
    load_client_data e (some t) =
      (normalize_rows (generate_synthetic_data e 150), "Dados simulados") :=
  load_client_data_fallback e (Or.inr ⟨t, rfl, try_load_eq_none h⟩)

/-- Table missing the required column "Tipo de Plano". -/
def tableC3 : RawTable :=
  { cols := ["ClienteID", "Plano (MB/s)", "Consumo Atual (MB/s)", "Bairro"]
    rows := [{ clienteID := "001", bairro := "Quati", plano := some 50,
               consumo := some 10, tipo := some "Residencial" }] }

/-- Witness for C3 at a concrete table missing "Tipo de Plano". -/
theorem load_missing_columns_falls_back_witness :
    (∃ c ∈ REQUIRED_COLUMNS, c ∉ (clean_columns tableC3).cols) ∧
      load_client_data 0 (some tableC3) =
        (normalize_rows (generate_synthetic_data 0 150), "Dados simulados") :=
  ⟨by with_unfolding_all decide,
   load_missing_columns_falls_back 0 tableC3 (by with_unfolding_all decide)⟩

/-! ### C5 -/

/-- Membership in the combined neighbourhood/tier/threshold mask filter
(the first stage of `apply_filters`). -/
lemma mem_filter_mask (df : List Row) (bs ts : List String) (cm : ℤ) (r : Row) :
    (r ∈ df.filter (fun r =>
      decide (r.bairro ∈ bs)
      && (match r.tipo with | some t => decide (t ∈ ts) | none => false)
      && (match r.consumo with | some c => decide ((cm : ℚ) ≤ c) | none => false))) ↔
    r ∈ df ∧ r.bairro ∈ bs ∧ (∃ tp, r.tipo = some tp ∧ tp ∈ ts) ∧
      (∃ c, r.consumo = some c ∧ (cm : ℚ) ≤ c) := by
  rw [List.mem_filter]
  constructor
  · rintro ⟨hdf, hmask⟩
    simp only [Bool.and_eq_true, decide_eq_true_eq] at hmask
    obtain ⟨⟨hb, ht⟩, hc⟩ := hmask
    refine ⟨hdf, hb, ?_, ?_⟩
    · cases htp : r.tipo with
      | none => rw [htp] at ht; simp at ht
      | some tp =>
          rw [htp] at ht
          exact ⟨tp, rfl, by simpa using ht⟩
    · cases hco : r.consumo with
      | none => rw [hco] at hc; simp at hc
      | some c =>
          rw [hco] at hc
          exact ⟨c, rfl, by simpa using hc⟩
  · rintro ⟨hdf, hb, ⟨tp, htp, htps⟩, ⟨c, hco, hcm⟩⟩
    refine ⟨hdf, ?_⟩
    simp only [Bool.and_eq_true, decide_eq_true_eq, htp, hco]
    exact ⟨⟨hb, by simpa using htps⟩, by simpa using hcm⟩

/-- C5: `apply_filters` returns exactly the rows whose neighbourhood is
selected, whose (defined) plan tier is selected, whose (defined) usage is
at least the threshold, restricted to critical rows in "Apenas críticos"
mode and to non-critical rows in "Sem críticos" mode (any other mode, in
particular "Todos", adds no restriction); an empty selected list of
neighbourhoods or tiers yields the empty result. -/
theorem apply_filters_spec (df : List Row) (bairros_sel tipos_sel : List String)
    (criticos_sel : String) (consumo_min : ℤ) :
    (∀ r : Row,
      r ∈ apply_filters df bairros_sel tipos_sel criticos_sel consumo_min ↔
        r ∈ df ∧ r.bairro ∈ bairros_sel ∧
          (∃ tp, r.tipo = some tp ∧ tp ∈ tipos_sel) ∧
          (∃ c, r.consumo = some c ∧ (consumo_min : ℚ) ≤ c) ∧
          (criticos_sel = "Apenas críticos" → r.excedeu = true) ∧
          (criticos_sel = "Sem críticos" → r.excedeu = false)) ∧
      (bairros_sel = [] ∨ tipos_sel = [] →
        apply_filters df bairros_sel tipos_sel criticos_sel consumo_min = []) := by
  have hmain : ∀ r : Row,
      r ∈ apply_filters df bairros_sel tipos_sel criticos_sel consumo_min ↔
        r ∈ df ∧ r.bairro ∈ bairros_sel ∧
          (∃ tp, r.tipo = some tp ∧ tp ∈ tipos_sel) ∧
          (∃ c, r.consumo = some c ∧ (consumo_min : ℚ) ≤ c) ∧
          (criticos_sel = "Apenas críticos" → r.excedeu = true) ∧
          (criticos_sel = "Sem críticos" → r.excedeu = false) := by
    intro r
    simp only [apply_filters]
    by_cases h1 : criticos_sel = "Apenas críticos"
    · rw [if_pos h1, List.mem_filter, mem_filter_mask]
      constructor
      · rintro ⟨⟨hdf, hb, htp, hc⟩, hex⟩
        exact ⟨hdf, hb, htp, hc, fun _ => hex,
          fun h2 => absurd (h1 ▸ h2) (by decide)⟩
      · rintro ⟨hdf, hb, htp, hc, hex, _⟩
        exact ⟨⟨hdf, hb, htp, hc⟩, hex h1⟩
    · rw [if_neg h1]
      by_cases h2 : criticos_sel = "Sem críticos"
      · rw [if_pos h2, List.mem_filter, mem_filter_mask]
        constructor
        · rintro ⟨⟨hdf, hb, htp, hc⟩, hex⟩
          refine ⟨hdf, hb, htp, hc, fun hcon => absurd hcon h1, fun _ => ?_⟩
          simpa using hex
        · rintro ⟨hdf, hb, htp, hc, _, hex⟩
          exact ⟨⟨hdf, hb, htp, hc⟩, by simp [hex h2]⟩
      · rw [if_neg h2, mem_filter_mask]
        constructor
        · rintro ⟨hdf, hb, htp, hc⟩
          exact ⟨hdf, hb, htp, hc, fun hcon => absurd hcon h1,
            fun hcon => absurd hcon h2⟩
        · rintro ⟨hdf, hb, htp, hc, _, _⟩
          exact ⟨hdf, hb, htp, hc⟩
  refine ⟨hmain, fun hempty => ?_⟩
  rw [List.eq_nil_iff_forall_not_mem]
  intro r hr
  rcases (hmain r).mp hr with ⟨_, hb, ⟨tp, _, htps⟩, _⟩
  rcases hempty with rfl | rfl
  · exact absurd hb (List.not_mem_nil r.bairro)
  · exact absurd htps (List.not_mem_nil tp)

/-- Roster used to instantiate the C5 theorem. -/
def dfC5 : List Row :=
  [{ clienteID := "001", bairro := "Quati", plano := some 50,
     consumo := some 100, tipo := some "Residencial", excedeu := true,
     excedeu50 := true, lat := none, lon := none },
   { clienteID := "002", bairro := "Outro", plano := some 100,
     consumo := some 20, tipo := some "Premium", excedeu := false,
     excedeu50 := false, lat := none, lon := none }]

/-- Witness instantiating the C5 theorem at a concrete roster and
concrete criteria. -/
theorem apply_filters_spec_witness :
    (∀ r : Row,
      r ∈ apply_filters dfC5 ["Quati"] ["Residencial"] "Todos" 0 ↔
        r ∈ dfC5 ∧ r.bairro ∈ ["Quati"] ∧
          (∃ tp, r.tipo = some tp ∧ tp ∈ ["Residencial"]) ∧
          (∃ c, r.consumo = some c ∧ ((0 : ℤ) : ℚ) ≤ c) ∧
          (("Todos" : String) = "Apenas críticos" → r.excedeu = true) ∧
          (("Todos" : String) = "Sem críticos" → r.excedeu = false)) ∧
      ((["Quati"] : List String) = [] ∨ (["Residencial"] : List String) = [] →
        apply_filters dfC5 ["Quati"] ["Residencial"] "Todos" 0 = []) :=
  apply_filters_spec dfC5 ["Quati"] ["Residencial"] "Todos" 0

/-! ### C6 -/

/-- Filtering twice by the same predicate equals filtering once. -/
lemma filter_self_idem {α : Type} (l : List α) (p : α → Bool) :
    (l.filter p).filter p = l.filter p := by
  simp only [List.filter_filter]
  apply List.filter_congr
  intro a _
  cases hp : p a <;> simp

/-- Re-running a two-stage filter (by `p`, then by `q`) on its own output
changes nothing. -/
lemma filter_pair_idem {α : Type} (l : List α) (p q : α → Bool) :
    (((l.filter p).filter q).filter p).filter q = (l.filter p).filter q := by
  simp only [List.filter_filter]
  apply List.filter_congr
  intro a _
  cases hp : p a <;> cases hq : q a <;> simp

/-- C6: `apply_filters` is idempotent — applying the same criteria to its
own output returns that output unchanged. -/
theorem apply_filters_idempotent (df : List Row)
    (bairros_sel tipos_sel : List String) (criticos_sel : String)
    (consumo_min : ℤ) :
    apply_filters (apply_filters df bairros_sel tipos_sel criticos_sel consumo_min)
        bairros_sel tipos_sel criticos_sel consumo_min =
      apply_filters df bairros_sel tipos_sel criticos_sel consumo_min := by
  simp only [apply_filters]
  by_cases h1 : criticos_sel = "Apenas críticos"
  · simp only [if_pos h1]
    exact filter_pair_idem df _ _
  · simp only [if_neg h1]
    by_cases h2 : criticos_sel = "Sem críticos"
    · simp only [if_pos h2]
      exact filter_pair_idem df _ _
    · simp only [if_neg h2]
      exact filter_self_idem df _

/-! ### C7 -/

/-- C7: on the empty roster `compute_kpis` takes its explicit empty-roster
branch and returns exactly total 0, critical 0, critical50 0, mean 0.0,
top neighbourhood "-", percentage 0.0 (no division is involved). -/
theorem compute_kpis_empty :
    compute_kpis [] =
      { total_clientes := 0, total_criticos := 0, total_criticos50 := 0,
        consumo_medio := 0, bairro_top := "-", perc_criticos := 0 } := rfl

/-! ### C8 -/

/-- C8: `generate_synthetic_data` seeds its generator with the constant
42, ignoring whatever ambient OS entropy each invocation could observe, so
any two invocations with the same target count produce identical rosters. -/
theorem generate_synthetic_data_deterministic (e₁ e₂ num_clients : ℕ) :
    generate_synthetic_data e₁ num_clients =
      generate_synthetic_data e₂ num_clients := rfl

/-! ### C9 -/

/-- The modelled uniform draw stays inside its half-open interval. -/
lemma uniform_60_200_bounds (rng : RNG) :
    60 ≤ (rng.uniform 60 200).1 ∧ (rng.uniform 60 200).1 < 200 := by
  unfold RNG.uniform RNG.next
  simp only
  have hv : ((rng.state * 6364136223846793005 + 1442695040888963407) % 2 ^ 64) <
      2 ^ 64 := Nat.mod_lt _ (by norm_num)
  have h0 : (0 : ℚ) ≤
      (((rng.state * 6364136223846793005 + 1442695040888963407) % 2 ^ 64 : ℕ) : ℚ) /
        2 ^ 64 := div_nonneg (Nat.cast_nonneg _) (by norm_num)
  have h1 : (((rng.state * 6364136223846793005 + 1442695040888963407) % 2 ^ 64 : ℕ) : ℚ) /
      2 ^ 64 < 1 := by
    rw [div_lt_one (by norm_num)]
    exact_mod_cast hv
  constructor
  · nlinarith
  · nlinarith

/-- Shape of the inner month loop: one record per (index, month) pair, in
order, all non-negative thanks to the floor at 0. -/
lemma trend_rows_spec (bairro : String) (base : ℚ) (rng : RNG)
    (pairs : List (ℕ × String)) :
    ((trend_rows bairro base rng pairs).1.map (fun t => (t.bairro, t.mes)) =
      pairs.map (fun p => (bairro, p.2))) ∧
    ∀ t ∈ (trend_rows bairro base rng pairs).1, 0 ≤ t.consumo_medio := by
  induction pairs generalizing rng with
  | nil => simp [trend_rows]
  | cons hd tl ih =>
      obtain ⟨idx, mes⟩ := hd
      simp only [trend_rows, List.map_cons, List.mem_cons]
      constructor
      · simp [(ih _).1]
      · rintro t (rfl | ht)
        · exact le_max_right _ _
        · exact (ih _).2 t ht

/-- Shape of the outer loop: the records of each seed pair, concatenated
in input order. -/
lemma trend_all_spec (rng : RNG) (sd : List (String × Option ℚ)) :
    ((trend_all rng sd).1.map (fun t => (t.bairro, t.mes)) =
      sd.flatMap (fun p => MESES.map (fun m => (p.1, m)))) ∧
    ∀ t ∈ (trend_all rng sd).1, 0 ≤ t.consumo_medio := by
  induction sd generalizing rng with
  | nil => simp [trend_all]
  | cons hd tl ih =>
      obtain ⟨bairro, base?⟩ := hd
      simp only [trend_all, List.flatMap_cons, List.map_append, List.mem_append]
      constructor
      · rw [(trend_rows_spec bairro _ _ MESES.enum).1, (ih _).1,
          show (fun p : ℕ × String => (bairro, p.2)) =
              (fun m => (bairro, m)) ∘ Prod.snd from rfl,
          ← List.map_map, List.enum_map_snd]
      · rintro t (ht | ht)
        · exact (trend_rows_spec bairro _ _ MESES.enum).2 t ht
        · exact (ih _).2 t ht

/-- C9: for non-empty seed data, `build_trend_data` produces exactly one
record per (seed pair, month), with the twelve month labels in calendar
order per neighbourhood, every synthesized value non-negative, and a NaN
base replaced by a seeded draw that always falls inside [60, 200). -/
theorem build_trend_data_spec (e : ℕ) (sd : List (String × Option ℚ))
    (h : sd ≠ []) :
    ((build_trend_data e sd).map (fun t => (t.bairro, t.mes)) =
      sd.flatMap (fun p => MESES.map (fun m => (p.1, m)))) ∧
    (∀ t ∈ build_trend_data e sd, 0 ≤ t.consumo_medio) ∧
    (∀ rng : RNG, 60 ≤ (rng.uniform 60 200).1 ∧ (rng.uniform 60 200).1 < 200) := by
  have hne : sd.isEmpty = false := by
    cases sd with
    | nil => exact absurd rfl h
    | cons hd tl => rfl
  unfold build_trend_data
  rw [hne]
  simp only [Bool.false_eq_true, if_false]
  exact ⟨(trend_all_spec _ sd).1, (trend_all_spec _ sd).2,
    fun rng => uniform_60_200_bounds rng⟩

/-- Seed data used to instantiate the C9 theorem: one defined base and one
NaN base. -/
def seedC9 : List (String × Option ℚ) := [("Centro", some 100), ("Quati", none)]

/-- Witness for C9 at concrete seed data. -/
theorem build_trend_data_spec_witness :
    seedC9 ≠ [] ∧
      (((build_trend_data 0 seedC9).map (fun t => (t.bairro, t.mes)) =
        seedC9.flatMap (fun p => MESES.map (fun m => (p.1, m)))) ∧
      (∀ t ∈ build_trend_data 0 seedC9, 0 ≤ t.consumo_medio) ∧
      (∀ rng : RNG, 60 ≤ (rng.uniform 60 200).1 ∧ (rng.uniform 60 200).1 < 200)) :=
  ⟨by decide, build_trend_data_spec 0 seedC9 (by decide)⟩

/-! ### C10 -/

/-- The running maximum in `seriesModeFirst` dominates the count of every
listed value. -/
lemma foldr_max_count_le (l : List String) {l' : List String} {b : String}
    (hb : b ∈ l') :
    l.count b ≤ l'.foldr (fun x acc => max (l.count x) acc) 0 := by
  induction l' with
  | nil => cases hb
  | cons x xs ih =>
      rcases List.mem_cons.mp hb with rfl | hb'
      · exact le_max_left _ _
      · exact le_trans (ih hb') (le_max_right _ _)

/-- The running maximum in `seriesModeFirst` is either 0 or attained by
some listed value. -/
lemma foldr_max_count_attained (l : List String) (l' : List String) :
    l'.foldr (fun x acc => max (l.count x) acc) 0 = 0 ∨
      ∃ b ∈ l', l'.foldr (fun x acc => max (l.count x) acc) 0 = l.count b := by
  induction l' with
  | nil => exact Or.inl rfl
  | cons x xs ih =>
      right
      rcases ih with h0 | ⟨b, hb, hfb⟩
      · exact ⟨x, List.mem_cons_self x xs, by rw [List.foldr_cons, h0]; simp⟩
      · rcases max_choice (l.count x)
            (xs.foldr (fun x acc => max (l.count x) acc) 0) with hm | hm
        · exact ⟨x, List.mem_cons_self x xs, by rw [List.foldr_cons, hm]⟩
        · exact ⟨b, List.mem_cons_of_mem x hb, by rw [List.foldr_cons, hm, hfb]⟩

/-- The left fold with binary minimum returns an element of the list that
is a lower bound for all of it. -/
lemma foldl_min_spec (x : String) (xs : List String) :
    xs.foldl (fun a b => if b < a then b else a) x ∈ x :: xs ∧
      ∀ y ∈ x :: xs, xs.foldl (fun a b => if b < a then b else a) x ≤ y := by
  induction xs generalizing x with
  | nil => simp
  | cons z zs ih =>
      simp only [List.foldl_cons]
      by_cases hz : z < x
      · rw [if_pos hz]
        rcases ih z with ⟨hmem, hle⟩
        constructor
        · exact List.mem_cons_of_mem x hmem
        · intro y hy
          rcases List.mem_cons.mp hy with rfl | hy'
          · exact le_trans (hle z (List.mem_cons_self z zs)) (le_of_lt hz)
          · exact hle y hy'
      · rw [if_neg hz]
        rcases ih x with ⟨hmem, hle⟩
        constructor
        · rcases List.mem_cons.mp hmem with hres | hres
          · rw [hres]
            exact List.mem_cons_self x (z :: zs)
          · exact List.mem_cons_of_mem x (List.mem_cons_of_mem z hres)
        · intro y hy
          rcases List.mem_cons.mp hy with rfl | hy'
          · exact hle y (List.mem_cons_self y zs)
          · rcases List.mem_cons.mp hy' with rfl | hy''
            · exact le_trans (hle x (List.mem_cons_self x zs)) (not_lt.mp hz)
            · exact hle y (List.mem_cons_of_mem x hy'')

/-- Characterisation of `seriesModeFirst` on a non-empty column: the
result occurs in the column, has maximal frequency, and is the least
value among those of maximal frequency. -/
lemma seriesModeFirst_spec (l : List String) (h : l ≠ []) :
    seriesModeFirst l ∈ l ∧
      (∀ b ∈ l, l.count b ≤ l.count (seriesModeFirst l)) ∧
      (∀ b ∈ l, l.count b = l.count (seriesModeFirst l) →
        seriesModeFirst l ≤ b) := by
  obtain ⟨a, ha⟩ := List.exists_mem_of_ne_nil l h
  have hM : ∃ b ∈ l,
      l.count b = l.foldr (fun x acc => max (l.count x) acc) 0 := by
    rcases foldr_max_count_attained l l with h0 | ⟨b, hb, hfb⟩
    · have h1 : 1 ≤ l.count a := List.count_pos_iff.mpr (by exact ha)
      have h2 := foldr_max_count_le l ha
      omega
    · exact ⟨b, hb, hfb.symm⟩
  obtain ⟨b, hb, hbM⟩ := hM
  have hbfilter : b ∈ l.filter
      (fun x => decide (l.count x = l.foldr (fun x acc => max (l.count x) acc) 0)) :=
    List.mem_filter.mpr ⟨hb, by simpa using hbM⟩
  cases hc : l.filter
      (fun x => decide (l.count x = l.foldr (fun x acc => max (l.count x) acc) 0)) with
  | nil => rw [hc] at hbfilter; cases hbfilter
  | cons x xs =>
      have hsm : seriesModeFirst l =
          xs.foldl (fun a b => if b < a then b else a) x := by
        simp only [seriesModeFirst]
        rw [hc]
      obtain ⟨hmem, hle⟩ := foldl_min_spec x xs
      rw [← hc] at hmem
      have hmem_l := (List.mem_filter.mp hmem).1
      have hmode : l.count (seriesModeFirst l) =
          l.foldr (fun x acc => max (l.count x) acc) 0 := by
        have := (List.mem_filter.mp hmem).2
        rw [hsm]
        simpa using this
      refine ⟨hsm ▸ hmem_l, fun c hcmem => ?_, fun c hcmem hcount => ?_⟩
      · rw [hmode]
        exact foldr_max_count_le l hcmem
      · have hcfilter : c ∈ l.filter
            (fun x => decide (l.count x = l.foldr (fun x acc => max (l.count x) acc) 0)) := by
          refine List.mem_filter.mpr ⟨hcmem, ?_⟩
          rw [hcount, hmode]
          simp
        rw [hc] at hcfilter
        rw [hsm]
        exact hle c hcfilter

/-- C10: on a non-empty roster the top neighbourhood reported by
`compute_kpis` occurs in the roster, no neighbourhood occurs more often,
and among the neighbourhoods tied for the maximal frequency it is the
lexicographically smallest (the first element of pandas' sorted mode). -/
theorem compute_kpis_bairro_top_spec (df : List Row) (h : df ≠ []) :
    (∃ r ∈ df, r.bairro = (compute_kpis df).bairro_top) ∧
      (∀ r ∈ df, (df.map (fun r => r.bairro)).count r.bairro ≤
        (df.map (fun r => r.bairro)).count (compute_kpis df).bairro_top) ∧
      (∀ r ∈ df, (df.map (fun r => r.bairro)).count r.bairro =
          (df.map (fun r => r.bairro)).count (compute_kpis df).bairro_top →
        (compute_kpis df).bairro_top ≤ r.bairro) := by
  have hne : df.isEmpty = false := by
    cases df with
    | nil => exact absurd rfl h
    | cons hd tl => rfl
  have htop : (compute_kpis df).bairro_top =
      seriesModeFirst (df.map (fun r => r.bairro)) := by
    unfold compute_kpis
    rw [hne]
    simp
  have hmapne : df.map (fun r => r.bairro) ≠ [] := by
    cases df with
    | nil => exact absurd rfl h
    | cons hd tl => simp
  obtain ⟨hmem, hmax, hmin⟩ :=
    seriesModeFirst_spec (df.map (fun r => r.bairro)) hmapne
  rw [htop]
  refine ⟨?_, ?_, ?_⟩
  · obtain ⟨r, hr, hrb⟩ := List.mem_map.mp hmem
    exact ⟨r, hr, hrb⟩
  · intro r hr
    exact hmax r.bairro (List.mem_map.mpr ⟨r, hr, rfl⟩)
  · intro r hr hcount
    exact hmin r.bairro (List.mem_map.mpr ⟨r, hr, rfl⟩) hcount

/-- Roster used to instantiate the C10 theorem: "Alfa" and "Beta" tie at
two occurrences each; "Alfa" is the lexicographically smaller mode. -/
def dfC10 : List Row :=
  [{ clienteID := "001", bairro := "Beta", plano := some 50,
     consumo := some 10, tipo := some "Residencial", excedeu := false,
     excedeu50 := false, lat := none, lon := none },
   { clienteID := "002", bairro := "Alfa", plano := some 50,
     consumo := some 10, tipo := some "Residencial", excedeu := false,
     excedeu50 := false, lat := none, lon := none },
   { clienteID := "003", bairro := "Beta", plano := some 50,
     consumo := some 10, tipo := some "Residencial", excedeu := false,
     excedeu50 := false, lat := none, lon := none },
   { clienteID := "004", bairro := "Alfa", plano := some 50,
     consumo := some 10, tipo := some "Residencial", excedeu := false,
     excedeu50 := false, lat := none, lon := none }]

/-- Witness for C10 at a concrete roster with a tie. -/
theorem compute_kpis_bairro_top_spec_witness :
    dfC10 ≠ [] ∧
      ((∃ r ∈ dfC10, r.bairro = (compute_kpis dfC10).bairro_top) ∧
        (∀ r ∈ dfC10, (dfC10.map (fun r => r.bairro)).count r.bairro ≤
          (dfC10.map (fun r => r.bairro)).count (compute_kpis dfC10).bairro_top) ∧
        (∀ r ∈ dfC10, (dfC10.map (fun r => r.bairro)).count r.bairro =
            (dfC10.map (fun r => r.bairro)).count (compute_kpis dfC10).bairro_top →
          (compute_kpis dfC10).bairro_top ≤ r.bairro)) :=
  ⟨by decide, compute_kpis_bairro_top_spec dfC10 (by decide)⟩
